import Mathlib

/-!
Shallow embedding of the BookBuddy court-availability notifier
(`src/kl-court-booking.py`, the main implementation, and
`src/pj-court-booking.py`, the secondary implementation), together with
theorems settling the specification claims about it.

Python strings are modelled as `String` / `List Char`; the regular
expressions of the source are modelled by explicit character scanners
that implement the same leftmost-match semantics; the two persisted
JSON files are modelled as small inductive file states; the Telegram
sink is modelled by the three ways a `requests.post` call can end
(response delivered, response with failure status, exception raised).
-/

namespace BookBuddy

/-- Python `\s` character class (ASCII whitespace as used by `re`). -/
def pyIsSpace (c : Char) : Bool :=
  c == ' ' || c == '\t' || c == '\n' || c == '\r' || c == '\x0b' || c == '\x0c'

/-- Numeric value of a list of decimal digit characters, as Python `int`. -/
def digitsVal (ds : List Char) : Nat :=
  ds.foldl (fun acc c => 10 * acc + (c.toNat - '0'.toNat)) 0

/-- Fuel-indexed scanner of Python `str.replace(pat, rep)`: replace every
non-overlapping occurrence, scanning left to right.  The fuel only makes the
recursion structural; every step consumes at least one character, so fuel
`s.length` never runs out. -/
def pyReplaceAux (pat rep : List Char) : Nat → List Char → List Char
  | 0, s => s
  | _ + 1, [] => []
  | fuel + 1, c :: rest =>
    if 0 < pat.length ∧ pat.isPrefixOf (c :: rest) = true then
      rep ++ pyReplaceAux pat rep fuel (List.drop pat.length (c :: rest))
    else
      c :: pyReplaceAux pat rep fuel rest

/-- Python `str.replace(pat, rep)` (an empty pattern is never used by the
source and is treated here as a no-op). -/
def pyReplace (pat rep : List Char) (s : List Char) : List Char :=
  pyReplaceAux pat rep s.length s

/-- Scanner for the tail `\d{2}\s*[AP]M` of the time-token regex of
`extract_time_range` (`src/kl-court-booking.py` line 133), case-insensitive;
returns the matched characters (minutes, inner whitespace and meridiem,
which all belong to the capture group) and the rest of the input. -/
def matchMinutes (cs : List Char) : Option (List Char × List Char) :=
  match cs with
  | d1 :: d2 :: rest =>
    if d1.isDigit && d2.isDigit then
      let ws := rest.takeWhile pyIsSpace
      let r2 := rest.dropWhile pyIsSpace
      match r2 with
      | a :: m :: r3 =>
        if (a == 'A' || a == 'a' || a == 'P' || a == 'p') && (m == 'M' || m == 'm') then
          some (d1 :: d2 :: (ws ++ [a, m]), r3)
        else none
      | _ => none
    else none
  | _ => none

/-- Scanner for one time token `\d{1,2}:\d{2}\s*[AP]M` anchored at the start
of the input (the greedy `\d{1,2}` with its only viable backtrack resolved:
after two digits the one-digit alternative would need a digit to equal `:`,
which is impossible).  Returns the captured token text and the rest. -/
def matchTime (cs : List Char) : Option (List Char × List Char) :=
  match cs with
  | c1 :: c2 :: c3 :: rest =>
    if c1.isDigit && c2.isDigit && c3 == ':' then
      (matchMinutes rest).map (fun p => (c1 :: c2 :: c3 :: p.1, p.2))
    else if c1.isDigit && c2 == ':' then
      (matchMinutes (c3 :: rest)).map (fun p => (c1 :: c2 :: p.1, p.2))
    else none
  | _ => none

/-- Scanner for the full range pattern
`(\d{1,2}:\d{2}\s*[AP]M)\s*-\s*(\d{1,2}:\d{2}\s*[AP]M)` anchored at the
start of the input; yields the two captured groups.  The greedy `\s*`
before `-` and before the second token cannot backtrack usefully because
`-` and digits are not whitespace. -/
def matchRangeAt (cs : List Char) : Option (List Char × List Char) :=
  (matchTime cs).bind fun p =>
    match p.2.dropWhile pyIsSpace with
    | '-' :: r3 =>
      (matchTime (r3.dropWhile pyIsSpace)).map (fun q => (p.1, q.1))
    | _ => none

/-- Leftmost search for the range pattern, as Python `re.search`. -/
def searchRange (cs : List Char) : Option (List Char × List Char) :=
  match cs with
  | [] => none
  | _ :: rest =>
    match matchRangeAt cs with
    | some r => some r
    | none => searchRange rest

/-- Embedding of `extract_time_range` (`src/kl-court-booking.py` lines
124-138): normalize `" to "` and `" - "` to `"-"`, then search for the time
range pattern; `(None, None)` of the source is modelled by `none`. -/
def extract_time_range (label : String) : Option (String × String) :=
  let clean := pyReplace " - ".data "-".data (pyReplace " to ".data "-".data label.data)
  (searchRange clean).map (fun p => (String.mk p.1, String.mk p.2))

/-- Case-insensitive keyword match for `(?:Court|Gelanggang)` anchored at the
start of the input; returns the rest of the input after the keyword. -/
def matchCourtKeyword (cs : List Char) : Option (List Char) :=
  if (cs.take 5).map Char.toLower = "court".data then
    some (cs.drop 5)
  else if (cs.take 10).map Char.toLower = "gelanggang".data then
    some (cs.drop 10)
  else none

/-- Match of `(?:Court|Gelanggang)\s+(\d+)` anchored at the start of the
input: keyword, then at least one whitespace, then at least one digit
(greedy); yields the integer value of the digit group. -/
def matchCourtAt (cs : List Char) : Option Nat :=
  (matchCourtKeyword cs).bind fun r =>
    if r.takeWhile pyIsSpace = [] then none
    else
      let r2 := r.dropWhile pyIsSpace
      let ds := r2.takeWhile Char.isDigit
      if ds = [] then none else some (digitsVal ds)

/-- Leftmost search for the court-number pattern. -/
def searchCourt (cs : List Char) : Option Nat :=
  match cs with
  | [] => none
  | _ :: rest =>
    match matchCourtAt cs with
    | some n => some n
    | none => searchCourt rest

/-- Embedding of `extract_court_number` (`src/kl-court-booking.py` lines
109-121): first integer following a court keyword, `None` when absent. -/
def extract_court_number (label : String) : Option Nat :=
  searchCourt label.data

/-- Modelled from the external library `dateutil.parser.parse`, restricted
to its hour field on the time-of-day tokens produced by
`extract_time_range` (digits, colon, two digits, optional whitespace,
optional meridiem): 12-hour values are converted with `12 AM` as hour 0 and
`12 PM` as hour 12; out-of-range fields raise, modelled by `none`. -/
def dateutilHour (token : String) : Option Nat :=
  let cs := token.data
  let hs := cs.takeWhile Char.isDigit
  match cs.dropWhile Char.isDigit with
  | ':' :: r2 =>
    let ms := r2.takeWhile Char.isDigit
    let r3 := (r2.dropWhile Char.isDigit).dropWhile pyIsSpace
    let h := digitsVal hs
    let m := digitsVal ms
    let isPM : Bool := match r3 with
      | c :: _ => c == 'P' || c == 'p'
      | [] => false
    let isAM : Bool := match r3 with
      | c :: _ => c == 'A' || c == 'a'
      | [] => false
    if hs.length = 0 || ms.length ≠ 2 || 60 ≤ m then none
    else if isPM then (if h ≤ 12 then some (h % 12 + 12) else none)
    else if isAM then (if h ≤ 12 then some (h % 12) else none)
    else (if h < 24 then some h else none)
  | _ => none

/-- Embedding of `is_slot_after_4pm` (`src/kl-court-booking.py` lines
141-152): extract the start time and accept when its hour lies in
`[19, 23)`; any extraction or parse failure yields `False`. -/
def is_slot_after_4pm (label : String) : Bool :=
  match extract_time_range label with
  | none => false
  | some (st, _) =>
    match dateutilHour st with
    | none => false
    | some h => decide (19 ≤ h) && decide (h < 23)

/-! ## Secondary implementation (`src/pj-court-booking.py`) -/

/-- Modelled Python `int(s[:2])` on the two-character prefix of an
`HH:MM` start-time string (`src/pj-court-booking.py` line 73): the value
when both characters are digits; `none` models the `ValueError` raised on
other prefixes. -/
def pyIntPrefix2 (s : String) : Option Nat :=
  match s.data with
  | c1 :: c2 :: _ =>
    if c1.isDigit && c2.isDigit then some (digitsVal [c1, c2]) else none
  | _ => none

/-- Embedding of the slot filter of `fetch_slots`
(`src/pj-court-booking.py` line 73):
`slot.get("ISBOOKED") == 0 and int(slot.get("STARTTIME","00:00")[:2]) >= 19`.
Python `and` short-circuits, so a booked slot never evaluates the hour;
`none` models the exception raised by `int` on a malformed prefix. -/
def pjSlotPasses (isBooked : Int) (startTime : String) : Option Bool :=
  if isBooked ≠ 0 then some false
  else (pyIntPrefix2 startTime).map (fun h => decide (19 ≤ h))

/-- Size limit used by both dispatchers (`MAX_MESSAGE_LENGTH` /
`max_length = 4000`). -/
def maxMessageLength : Nat := 4000

/-- Fuel-indexed slicing loop of `send_telegram_message` in
`src/pj-court-booking.py` (lines 34-44).  The fuel only makes the
recursion structural; every step consumes at least one character, so fuel
`text.length` never runs out. -/
def pjChunksAux : Nat → List Char → List (List Char)
  | 0, _ => []
  | fuel + 1, text =>
    if text = [] then []
    else text.take maxMessageLength :: pjChunksAux fuel (text.drop maxMessageLength)

/-- Embedding of the chunking of `send_telegram_message` in
`src/pj-court-booking.py` (lines 34-44): the texts posted to the sink are
the successive slices `text[i:i+max_length]` for `i = 0, max_length, ...`. -/
def pjChunks (text : List Char) : List (List Char) :=
  pjChunksAux text.length text

/-- Python `text.split(sep)` for a one-character separator: the list of
(possibly empty) segments between occurrences of the separator. -/
def pySplitLines (cs : List Char) : List (List Char) :=
  match cs with
  | [] => [[]]
  | c :: rest =>
    if c = '\n' then [] :: pySplitLines rest
    else
      match pySplitLines rest with
      | l :: ls => (c :: l) :: ls
      | [] => [[c]]

/-! ## Main implementation: configuration and keys
(`src/kl-court-booking.py`) -/

/-- Embedding of the `LOCATIONS` table (lines 27-33). -/
def LOCATIONS : List (Nat × String) :=
  [(15, "Bukit Bandaraya"), (9, "Bangsar"), (7, "TTDI"),
   (10, "TITIWANGSA"), (11, "Bandar Tun Razak")]

/-- Name of a location id.  `run` only ever uses ids drawn from
`LOCATIONS`, so the Python `LOCATIONS[location_id]` lookup never raises;
unknown ids are given a default name. -/
def locationName (lid : Nat) : String :=
  (LOCATIONS.lookup lid).getD ""

/-- Embedding of the `IGNORED_COURTS` table (lines 37-41). -/
def IGNORED_COURTS : List (Nat × List Nat) :=
  [(10, [5, 6])]

/-- Embedding of `should_ignore_court` (lines 155-159). -/
def should_ignore_court (locationId : Nat) (courtNumber : Nat) : Bool :=
  match IGNORED_COURTS.lookup locationId with
  | none => false
  | some courts => courtNumber ∈ courts

/-- Slot-key construction of `process_and_notify` (line 231): the f-string
interpolation of location name, display date and the raw slot label. -/
def slotKey (locName date slot : String) : String :=
  locName ++ " - " ++ date ++ " - " ++ slot

/-- Flattened current-key list of `process_and_notify` (lines 227-231):
all keys of the nested location/date/slot structure, in iteration order. -/
def computeCurrentList (allSlots : List (Nat × List (String × List String))) :
    List String :=
  ((allSlots.map (fun ld =>
      (ld.2.map (fun ds => ds.2.map (slotKey (locationName ld.1) ds.1))).flatten)).flatten)

/-- Current-key set of lines 227-231 (`current_slots` is a Python set, so
duplicates collapse). -/
def computeCurrentSlots (allSlots : List (Nat × List (String × List String))) :
    Finset String :=
  (computeCurrentList allSlots).toFinset

/-- Sorted unique key list written to the slot file (line 350,
`json.dump(sorted(current_slots))`): a stable ascending sort of the
distinct keys, which is exactly Python `sorted` applied to the set. -/
def sortedCurrentSlots (allSlots : List (Nat × List (String × List String))) :
    List String :=
  ((computeCurrentList allSlots).dedup).insertionSort (· ≤ ·)

/-- Diff of line 233: `new_slots = current_slots - previous_slots`. -/
def new_slots (currentSlots previousSlots : Finset String) : Finset String :=
  currentSlots \ previousSlots

/-- Diff of line 234: `removed_slots = previous_slots - current_slots`. -/
def removed_slots (currentSlots previousSlots : Finset String) : Finset String :=
  previousSlots \ currentSlots

/-! ## Main implementation: per-slot filter used in `run`
(lines 409-425) -/

/-- Predicate deciding whether `run` keeps a fetched slot (lines 410-425):
keep when `is_slot_after_4pm` holds and the slot is not on the ignore list
(a slot with no court number is never ignored). -/
def klKeepSlot (locationId : Nat) (slot : String) : Bool :=
  is_slot_after_4pm slot &&
    !(match extract_court_number slot with
      | some n => should_ignore_court locationId n
      | none => false)

/-- Filtered slot list for one (location, date), lines 409-425. -/
def filterDaySlots (locationId : Nat) (slots : List String) : List String :=
  slots.filter (klKeepSlot locationId)

/-- Per-location accumulation of lines 396-428: a date is recorded only
when its filtered list is non-empty. -/
def buildLocationSlots (locationId : Nat) (days : List (String × List String)) :
    List (String × List String) :=
  days.foldr (fun dr acc =>
    let f := filterDaySlots locationId dr.2
    if f = [] then acc else (dr.1, f) :: acc) []

/-- Accumulation of lines 389-431: a location is recorded only when it has
at least one date with slots. -/
def buildAllLocationSlots (fetched : List (Nat × List (String × List String))) :
    List (Nat × List (String × List String)) :=
  fetched.foldr (fun ld acc =>
    let ls := buildLocationSlots ld.1 ld.2
    if ls = [] then acc else (ld.1, ls) :: acc) []

/-! ## Main implementation: persisted state and dispatch
(lines 221-225, 336-352) -/

/-- State of the persisted slot-key file `dbkl_last_slots.json`:
absent, present but not valid JSON (where `json.load` raises), or a parsed
list of key strings. -/
inductive SlotFileContent where
  | absent : SlotFileContent
  | corrupt : SlotFileContent
  | parsed : List String → SlotFileContent
deriving DecidableEq

/-- State of the persisted hash file `dbkl_last_sent_hash.json`: absent,
present but not valid JSON, or a parsed dictionary whose optional
`"hash"` entry is recorded. -/
inductive HashFileContent where
  | absent : HashFileContent
  | corrupt : HashFileContent
  | parsed : Option String → HashFileContent
deriving DecidableEq

/-- The two persisted state files. -/
structure FileState where
  hashFile : HashFileContent
  slotFile : SlotFileContent
deriving DecidableEq

/-- Outcome of a `send_telegram_message` call, i.e. of the underlying
`requests.post`: the sink accepted the message, the sink returned a failure
status (the source only prints the status and continues), or the transport
raised an exception (which the source does not catch). -/
inductive SendOutcome where
  | delivered : SendOutcome
  | rejected : SendOutcome
  | raised : SendOutcome
deriving DecidableEq

/-- State loading of lines 221-225: a missing slot file yields the empty
set; `json.load` on a corrupt file raises, modelled by `Except.error`. -/
def loadPreviousSlots (sf : SlotFileContent) : Except Unit (Finset String) :=
  match sf with
  | .absent => .ok ∅
  | .corrupt => .error ()
  | .parsed slots => .ok slots.toFinset

/-- Hash loading of lines 338-342 combined with the `.get("hash")` of
line 344: a missing file yields the empty dict, whose `get` is `None`;
a corrupt file raises. -/
def loadLastHash (hf : HashFileContent) : Except Unit (Option String) :=
  match hf with
  | .absent => .ok none
  | .corrupt => .error ()
  | .parsed h => .ok h

/-- Dispatch-and-commit stage of `process_and_notify` (lines 336-352),
parametric in the hash function (the source uses the MD5 hex digest, whose
only relevant property here is being a function of the message) and in the
composed message text.  When the stored hash differs from the computed one
the message is sent and then both files are rewritten unconditionally; an
exception inside the send propagates before any write. -/
def processDispatch (hashFn : String → String) (message : String)
    (sortedCurrent : List String) (fs : FileState) (send : SendOutcome) :
    Except Unit (FileState × Bool) :=
  let messageHash := hashFn message
  match loadLastHash fs.hashFile with
  | .error _ => .error ()
  | .ok stored =>
    if stored ≠ some messageHash then
      match send with
      | .raised => .error ()
      | _ =>
        .ok ({ hashFile := .parsed (some messageHash),
               slotFile := .parsed sortedCurrent }, true)
    else
      .ok (fs, false)

/-- Embedding of `process_and_notify` (lines 217-352), parametric in the
hash function and in the composed message text of lines 238-335 (whose
construction the theorems below quantify over).  The previous-slot load of
lines 221-225 happens first; the diff of lines 233-234 feeds only the
message; then the dispatch stage runs. -/
def process_and_notify (hashFn : String → String) (message : String)
    (allSlots : List (Nat × List (String × List String)))
    (fs : FileState) (send : SendOutcome) : Except Unit (FileState × Bool) :=
  match loadPreviousSlots fs.slotFile with
  | .error _ => .error ()
  | .ok _prev =>
    processDispatch hashFn message (sortedCurrentSlots allSlots) fs send

/-- Tail of `run` (lines 439-443): when the accumulated structure is empty
the function returns before `process_and_notify`, sending nothing and
touching no file. -/
def runTail (hashFn : String → String) (message : String)
    (fetched : List (Nat × List (String × List String)))
    (fs : FileState) (send : SendOutcome) : Except Unit (FileState × Bool) :=
  let allSlots := buildAllLocationSlots fetched
  if allSlots = [] then .ok (fs, false)
  else process_and_notify hashFn message allSlots fs send

/-! ## Main implementation: composer court rendering
(lines 291-301) -/

/-- Sort key of line 294: `x[0] if x[0] is not None else 999`. -/
def courtSortKey (x : Option Nat × Bool) : Nat :=
  match x.1 with
  | some n => n
  | none => 999

/-- Stable sort of the `(court_num, is_new)` pairs of one time-range group
(line 294).  Python `sorted` is a stable sort by `courtSortKey`, and the
output of a stable sort by a key is unique, so the stable
`List.insertionSort` computes exactly the same list. -/
def sortCourts (courts : List (Option Nat × Bool)) : List (Option Nat × Bool) :=
  courts.insertionSort (fun a b => courtSortKey a ≤ courtSortKey b)

/-- Court-list rendering of lines 293-299: after sorting, only pairs whose
court number is not `None` contribute a string; new slots get the marker. -/
def renderCourtStrings (courts : List (Option Nat × Bool)) : List String :=
  (sortCourts courts).filterMap (fun cb =>
    match cb.1 with
    | some n => some (if cb.2 then toString n ++ "🆕" else toString n)
    | none => none)

/-- Joined court list of line 301. -/
def courtsText (courts : List (Option Nat × Bool)) : String :=
  String.intercalate ", " (renderCourtStrings courts)

/-! ## Concrete inputs used by counterexamples -/

/-- Slot label using the word separator. -/
def labelTo : String := "Court 1 07:00 PM to 09:00 PM"

/-- Same slot (same location, date, court, time range) using the dash
separator. -/
def labelDash : String := "Court 1 07:00 PM - 09:00 PM"

/-! ## Claim theorems -/

/-- Claim C1, counterexample: the two labels agree on court number and on
the extracted time range (so they describe the same bookable unit and
differ only in separator style), yet the key construction of line 231
produces different keys: the raw label is embedded verbatim, with no
canonicalization. -/
theorem slotKey_not_canonical_cex :
    extract_court_number labelTo = extract_court_number labelDash ∧
    extract_time_range labelTo = extract_time_range labelDash ∧
    slotKey "Bangsar" "01/01/2025" labelTo ≠ slotKey "Bangsar" "01/01/2025" labelDash := by
  refine ⟨by decide, by decide, by decide⟩

/-- Claim C1, amended: the key produced for diffing is the verbatim
concatenation of location name, date and raw label, so for a fixed
location and date two labels produce the same key exactly when they are
identical strings; surface text variation in the label yields distinct
keys. -/
theorem slotKey_verbatim_concatenation (locName date s s' : String) :
    slotKey locName date s = slotKey locName date s' ↔ s = s' := by
  constructor
  · intro h
    have h2 := congrArg String.data h
    simp only [slotKey, String.data_append, List.append_assoc] at h2
    exact String.ext
      (List.append_cancel_left (List.append_cancel_left
        (List.append_cancel_left (List.append_cancel_left h2))))
  · intro h
    rw [h]

/-- Witness for C1 at a concrete input. -/
theorem slotKey_verbatim_concatenation_witness :
    slotKey "Bangsar" "01/01/2025" labelTo = slotKey "Bangsar" "01/01/2025" labelTo :=
  (slotKey_verbatim_concatenation "Bangsar" "01/01/2025" labelTo labelTo).mpr rfl

/-- Claim C4: for every label whose start time extracts and parses, the
notify-window filter of the main implementation accepts exactly when the
start hour lies in `[19, 23)`; moreover a slot starting at 19:00 passes,
one at 23:00 does not, and one at 18:59 does not. -/
theorem notify_window_boundary :
    (∀ label st en h, extract_time_range label = some (st, en) →
        dateutilHour st = some h →
        (is_slot_after_4pm label = true ↔ 19 ≤ h ∧ h < 23)) ∧
    is_slot_after_4pm "Court 1 07:00 PM - 09:00 PM" = true ∧
    is_slot_after_4pm "Court 1 11:00 PM - 11:45 PM" = false ∧
    is_slot_after_4pm "Court 1 06:59 PM - 09:00 PM" = false := by
  refine ⟨?_, by decide, by decide, by decide⟩
  intro label st en h hx hp
  simp [is_slot_after_4pm, hx, hp]

/-- Witness for C4: the window characterization applied at a concrete
label starting 20:30. -/
theorem notify_window_boundary_witness :
    is_slot_after_4pm "Court 2 08:30 PM to 10:30 PM" = true :=
  (notify_window_boundary.1 "Court 2 08:30 PM to 10:30 PM" "08:30 PM" "10:30 PM" 20
    (by decide) (by decide)).mpr (by decide)

/-- Claim C5, counterexample: the claim says the second implementation
accepts exactly when the start hour is at least 20, but the filter of
`fetch_slots` line 73 accepts an unbooked slot starting at hour 19. -/
theorem pj_window_uses_19_cex :
    pjSlotPasses 0 "19:00" = some true ∧
    pyIntPrefix2 "19:00" = some 19 ∧ ¬ (20 ≤ 19) := by
  refine ⟨by decide, by decide, by decide⟩

/-- Claim C5, amended: the two notify-window predicates do disagree, but
not as the claim states: the first accepts exactly when the start hour is
in `[19, 23)`, while the second accepts an unbooked slot exactly when its
start hour is at least 19 (not 20); they disagree at hour 23, which the
first rejects and the second accepts. -/
theorem window_predicates_disagree :
    (∀ label st en h, extract_time_range label = some (st, en) →
        dateutilHour st = some h →
        (is_slot_after_4pm label = true ↔ 19 ≤ h ∧ h < 23)) ∧
    (∀ (isBooked : Int) (startTime : String) (h : Nat),
        pyIntPrefix2 startTime = some h →
        (pjSlotPasses isBooked startTime = some true ↔ isBooked = 0 ∧ 19 ≤ h)) ∧
    is_slot_after_4pm "Court 1 11:00 PM - 11:45 PM" = false ∧
    pjSlotPasses 0 "23:00" = some true := by
  refine ⟨?_, ?_, by decide, by decide⟩
  · intro label st en h hx hp
    simp [is_slot_after_4pm, hx, hp]
  · intro isBooked startTime h hp
    by_cases hb : isBooked = 0
    · subst hb
      simp [pjSlotPasses, hp]
    · simp [pjSlotPasses, hb]

/-- Witness for C5 at concrete inputs: an unbooked slot starting 20:00
passes the second filter. -/
theorem window_predicates_disagree_witness :
    pjSlotPasses 0 "20:00" = some true :=
  (window_predicates_disagree.2.1 0 "20:00" 20 (by decide)).mpr ⟨rfl, by decide⟩

/-- Claim C6: the diff of lines 233-234 satisfies
`current = (previous - removed) ∪ new` and `new ∩ removed = ∅`. -/
theorem diff_algebra (previousSlots currentSlots : Finset String) :
    currentSlots =
      (previousSlots \ removed_slots currentSlots previousSlots) ∪
        new_slots currentSlots previousSlots ∧
    new_slots currentSlots previousSlots ∩ removed_slots currentSlots previousSlots = ∅ := by
  constructor
  · ext x
    simp only [new_slots, removed_slots, Finset.mem_union, Finset.mem_sdiff]
    tauto
  · ext x
    simp only [new_slots, removed_slots, Finset.mem_inter, Finset.mem_sdiff,
      Finset.not_mem_empty, iff_false]
    tauto

/-- Claim C2, counterexample: a run in which the stored hash differs from
the composed message's hash and the sink rejects the send (`requests.post`
returns a failure status, which the source merely prints) still commits
both state files — the source never checks the response before writing
(lines 344-350). -/
theorem commit_despite_rejected_send_cex :
    process_and_notify (fun _ => "h") "m"
      [(9, [("01/01/2025", [labelTo])])]
      { hashFile := .absent, slotFile := .absent } .rejected =
    .ok ({ hashFile := .parsed (some "h"),
           slotFile := .parsed ["Bangsar - 01/01/2025 - Court 1 07:00 PM to 09:00 PM"] },
         true) := rfl

/-- Claim C2, amended: when the stored hash differs from the composed
message's hash, both state files are committed whenever the send call
returns — regardless of whether the sink accepted or rejected the message;
only an exception raised inside the send aborts the run before the commit
(and then neither file is written). -/
theorem commit_whenever_send_returns (hashFn : String → String) (message : String)
    (allSlots : List (Nat × List (String × List String))) (fs : FileState)
    (send : SendOutcome) (stored : Option String) (prev : Finset String)
    (hprev : loadPreviousSlots fs.slotFile = .ok prev)
    (hstored : loadLastHash fs.hashFile = .ok stored)
    (hdiff : stored ≠ some (hashFn message)) :
    process_and_notify hashFn message allSlots fs send =
      if send = .raised then .error ()
      else .ok ({ hashFile := .parsed (some (hashFn message)),
                  slotFile := .parsed (sortedCurrentSlots allSlots) }, true) := by
  unfold process_and_notify processDispatch
  simp only [hprev, hstored]
  rw [if_pos hdiff]
  cases send <;> rfl

/-- Witness for C2 at a concrete input with a delivered send. -/
theorem commit_whenever_send_returns_witness :
    process_and_notify (fun _ => "h") "mm" []
      { hashFile := .absent, slotFile := .absent } .delivered =
    .ok ({ hashFile := .parsed (some "h"), slotFile := .parsed [] }, true) := by
  have h := commit_whenever_send_returns (fun _ => "h") "mm" []
    { hashFile := .absent, slotFile := .absent } .delivered none ∅ rfl rfl (by decide)
  simpa using h

/-- Claim C7: when the stored hash equals the composed message's hash, the
run sends nothing and leaves both persisted state files unchanged. -/
theorem no_change_no_dispatch (hashFn : String → String) (message : String)
    (allSlots : List (Nat × List (String × List String))) (fs : FileState)
    (send : SendOutcome) (prev : Finset String)
    (hprev : loadPreviousSlots fs.slotFile = .ok prev)
    (hstored : loadLastHash fs.hashFile = .ok (some (hashFn message))) :
    process_and_notify hashFn message allSlots fs send = .ok (fs, false) := by
  unfold process_and_notify processDispatch
  simp only [hprev, hstored]
  rw [if_neg]
  simp

/-- Witness for C7 at a concrete input. -/
theorem no_change_no_dispatch_witness :
    process_and_notify (fun _ => "x") "msg" []
      { hashFile := .parsed (some "x"), slotFile := .parsed ["k"] } .delivered =
    .ok ({ hashFile := .parsed (some "x"), slotFile := .parsed ["k"] }, false) :=
  no_change_no_dispatch (fun _ => "x") "msg" []
    { hashFile := .parsed (some "x"), slotFile := .parsed ["k"] } .delivered
    (["k"].toFinset) rfl rfl

/-- Claim C9, counterexample: a slot-key file that exists but is not valid
JSON does not yield the empty baseline — `json.load` raises (line 223,
no handler), so state loading errors and the run aborts instead of
continuing. -/
theorem corrupt_slot_file_aborts_cex :
    loadPreviousSlots .corrupt = .error () ∧
    process_and_notify (fun _ => "h") "m" []
      { hashFile := .absent, slotFile := .corrupt } .delivered = .error () :=
  ⟨rfl, rfl⟩

/-- Claim C9, amended: an absent slot-key file yields the empty
previous-key set (so every current slot is classified as new) and the run
continues; but an unparsable slot-key file raises out of `json.load` and
the run aborts rather than continuing. -/
theorem state_load_absent_vs_corrupt :
    loadPreviousSlots .absent = .ok (∅ : Finset String) ∧
    (∀ currentSlots : Finset String, new_slots currentSlots ∅ = currentSlots) ∧
    (∀ (hashFn : String → String) (message : String)
        (allSlots : List (Nat × List (String × List String)))
        (hf : HashFileContent) (send : SendOutcome),
        process_and_notify hashFn message allSlots
          { hashFile := hf, slotFile := .corrupt } send = .error ()) := by
  refine ⟨rfl, ?_, ?_⟩
  · intro currentSlots
    simp [new_slots]
  · intro hashFn message allSlots hf send
    rfl

/-- Helper: a location whose every date filters to the empty list
contributes no entry (lines 396-428). -/
theorem buildLocationSlots_nil (locationId : Nat) (days : List (String × List String))
    (h : ∀ q ∈ days, filterDaySlots locationId q.2 = []) :
    buildLocationSlots locationId days = [] := by
  induction days with
  | nil => rfl
  | cons d rest ih =>
    have hd := h d (List.mem_cons_self d rest)
    have hr : ∀ q ∈ rest, filterDaySlots locationId q.2 = [] :=
      fun q hq => h q (List.mem_cons_of_mem _ hq)
    simp only [buildLocationSlots, List.foldr_cons, hd, if_pos]
    exact ih hr

/-- Helper: when every location contributes nothing, the accumulated
structure is empty (lines 389-431). -/
theorem buildAllLocationSlots_nil (fetched : List (Nat × List (String × List String)))
    (h : ∀ p ∈ fetched, buildLocationSlots p.1 p.2 = []) :
    buildAllLocationSlots fetched = [] := by
  induction fetched with
  | nil => rfl
  | cons p rest ih =>
    have hp := h p (List.mem_cons_self p rest)
    have hr : ∀ q ∈ rest, buildLocationSlots q.1 q.2 = [] :=
      fun q hq => h q (List.mem_cons_of_mem _ hq)
    simp only [buildAllLocationSlots, List.foldr_cons, hp, if_pos]
    exact ih hr

/-- Claim C10: when the filtered slot list is empty for every fetched
(location, date), `run` returns at line 441 before `process_and_notify`:
nothing is sent — even if previously observed slots all disappeared — and
neither state file is modified, so the stale baseline persists. -/
theorem empty_filtered_skips_dispatch (hashFn : String → String) (message : String)
    (fetched : List (Nat × List (String × List String))) (fs : FileState)
    (send : SendOutcome)
    (hempty : ∀ p ∈ fetched, ∀ q ∈ p.2, filterDaySlots p.1 q.2 = []) :
    runTail hashFn message fetched fs send = .ok (fs, false) := by
  have hall : buildAllLocationSlots fetched = [] :=
    buildAllLocationSlots_nil fetched
      (fun p hp => buildLocationSlots_nil p.1 p.2 (hempty p hp))
  simp [runTail, hall]

/-- Witness for C10 at a concrete input: the fetched slot starts at 18:00
(outside the window), the baseline still records an old slot, and the run
is a no-op on both files. -/
theorem empty_filtered_skips_dispatch_witness :
    runTail (fun _ => "h") "m" [(9, [("01/01/2025", ["Court 1 06:00 PM to 07:00 PM"])])]
      { hashFile := .absent,
        slotFile := .parsed ["Bangsar - 01/01/2025 - Court 1 07:00 PM to 09:00 PM"] }
      .delivered =
    .ok ({ hashFile := .absent,
           slotFile := .parsed ["Bangsar - 01/01/2025 - Court 1 07:00 PM to 09:00 PM"] },
         false) :=
  empty_filtered_skips_dispatch (fun _ => "h") "m" _ _ .delivered (by decide)

/-- Claim C8, counterexample: a label with no court keyword extracts no
court number and is kept by the filter, and its group entry sorts last —
but line 296 (`if court_num is not None`) drops it from the rendered court
list, so it is not rendered in the composed output at all: a group of two
slots renders the single string "2". -/
theorem unnumbered_court_unrendered_cex :
    extract_court_number "07:00 PM to 09:00 PM" = none ∧
    klKeepSlot 9 "07:00 PM to 09:00 PM" = true ∧
    sortCourts [(extract_court_number "07:00 PM to 09:00 PM", false), (some 2, false)] =
      [(some 2, false), (none, false)] ∧
    renderCourtStrings
      [(extract_court_number "07:00 PM to 09:00 PM", false), (some 2, false)] = ["2"] ∧
    courtsText
      [(extract_court_number "07:00 PM to 09:00 PM", false), (some 2, false)] = "2" := by
  refine ⟨by decide, by decide, by decide, by decide, by decide⟩

/-- Claim C8, amended: a slot without a recognizable court number is
retained and its `(None, is_new)` entry sorts after every numbered court
(whose numbers are below the sentinel 999), but it is omitted from the
rendered court list: the number of rendered court strings equals the
number of slots in the group that have a court number. -/
theorem unnumbered_sorted_last_not_rendered (courts : List (Option Nat × Bool))
    (hsmall : ∀ p ∈ courts, ∀ n, p.1 = some n → n < 999) :
    (∀ l1 x l2 y, sortCourts courts = l1 ++ x :: l2 → x.1 = none → y ∈ l2 →
        y.1 = none) ∧
    (renderCourtStrings courts).length =
      (courts.filter (fun p => p.1.isSome)).length := by
  haveI instTot : IsTotal (Option Nat × Bool) (fun a b => courtSortKey a ≤ courtSortKey b) :=
    ⟨fun a b => Nat.le_total _ _⟩
  haveI instTrans : IsTrans (Option Nat × Bool) (fun a b => courtSortKey a ≤ courtSortKey b) :=
    ⟨fun a b c hab hbc => Nat.le_trans hab hbc⟩
  constructor
  · intro l1 x l2 y heq hx hy
    have hsorted : List.Sorted (fun a b => courtSortKey a ≤ courtSortKey b)
        (sortCourts courts) := List.sorted_insertionSort _ courts
    rw [heq] at hsorted
    have hs2 : List.Pairwise (fun a b => courtSortKey a ≤ courtSortKey b) (x :: l2) :=
      hsorted.sublist (List.sublist_append_right l1 (x :: l2))
    have hxy : courtSortKey x ≤ courtSortKey y := (List.pairwise_cons.mp hs2).1 y hy
    have hkey : courtSortKey x = 999 := by simp [courtSortKey, hx]
    cases hyc : y.1 with
    | none => rfl
    | some n =>
      have hmem : y ∈ courts := by
        have h1 : y ∈ sortCourts courts := by
          rw [heq]
          exact List.mem_append_right l1 (List.mem_cons_of_mem x hy)
        exact (List.perm_insertionSort _ courts).mem_iff.mp h1
      have hn : n < 999 := hsmall y hmem n hyc
      have : (999 : Nat) ≤ n := by
        rw [hkey] at hxy
        simpa [courtSortKey, hyc] using hxy
      omega
  · have step : ∀ l : List (Option Nat × Bool),
        (l.filterMap (fun cb =>
          match cb.1 with
          | some n => some (if cb.2 then toString n ++ "🆕" else toString n)
          | none => none)).length = (l.filter (fun p => p.1.isSome)).length := by
      intro l
      induction l with
      | nil => rfl
      | cons a t ih =>
        cases ha : a.1 with
        | none => simpa [List.filterMap_cons, List.filter_cons, ha] using ih
        | some n => simpa [List.filterMap_cons, List.filter_cons, ha] using ih
    have hperm : List.Perm ((sortCourts courts).filter (fun p => p.1.isSome))
        (courts.filter (fun p => p.1.isSome)) :=
      (List.perm_insertionSort _ courts).filter _
    calc (renderCourtStrings courts).length
        = ((sortCourts courts).filter (fun p => p.1.isSome)).length := step _
      _ = (courts.filter (fun p => p.1.isSome)).length := hperm.length_eq

/-- Witness for C8 at a concrete group. -/
theorem unnumbered_sorted_last_not_rendered_witness :
    (renderCourtStrings [(none, true), (some 2, false)]).length =
      (([(none, true), (some 2, false)] : List (Option Nat × Bool)).filter
        (fun p => p.1.isSome)).length :=
  (unnumbered_sorted_last_not_rendered [(none, true), (some 2, false)] (by decide)).2

/-- Text of 4001 identical characters and no newline: a single line longer
than the chunk size limit. -/
def longText : List Char := List.replicate 4001 'x'

/-- Helper: splitting a newline-free text yields that text as its single
line. -/
theorem pySplitLines_no_newline (l : List Char) (h : ∀ c ∈ l, ¬ c = '\n') :
    pySplitLines l = [l] := by
  induction l with
  | nil => rfl
  | cons c rest ih =>
    have hc : ¬ c = '\n' := h c (List.mem_cons_self c rest)
    have hr := ih (fun a ha => h a (List.mem_cons_of_mem _ ha))
    simp [pySplitLines, hc, hr]

/-- Helper: one step of the slicing loop on a non-empty text. -/
theorem pjChunksAux_succ (fuel : Nat) (text : List Char) (h : ¬ text = []) :
    pjChunksAux (fuel + 1) text =
      text.take maxMessageLength :: pjChunksAux fuel (text.drop maxMessageLength) := by
  simp [pjChunksAux, h]

/-- Helper: the slicing loop on the empty text yields no chunks. -/
theorem pjChunksAux_nil (fuel : Nat) : pjChunksAux fuel [] = [] := by
  cases fuel <;> simp [pjChunksAux]

/-- Helper: the characters of `longText`. -/
theorem longText_mem (c : Char) (h : c ∈ longText) : c = 'x' :=
  List.eq_of_mem_replicate h

/-- Helper: the secondary dispatcher's chunks on the single long line. -/
theorem pjChunks_longText : pjChunks longText = [List.replicate 4000 'x', ['x']] := by
  have hlen : longText.length = 4001 := by
    rw [longText, List.length_replicate]
  have hne : ¬ longText = [] := by
    intro h
    rw [h] at hlen
    simp at hlen
  have hdrop : longText.drop 4000 = ['x'] := by
    rw [longText, List.drop_replicate, show (4001 - 4000 : Nat) = 1 from rfl,
      List.replicate_one]
  have htake : longText.take 4000 = List.replicate 4000 'x' := by
    rw [longText, List.take_replicate, show (4000 ⊓ 4001 : Nat) = 4000 by omega]
  rw [pjChunks, hlen, show (4001 : Nat) = 4000 + 1 from rfl,
    pjChunksAux_succ 4000 longText hne]
  rw [show maxMessageLength = 4000 from rfl, hdrop, htake]
  rw [show (4000 : Nat) = 3999 + 1 from rfl, pjChunksAux_succ 3999 ['x'] (by simp)]
  rw [show maxMessageLength = 4000 from rfl]
  have htake1 : (['x'] : List Char).take 4000 = ['x'] := List.take_of_length_le (by simp)
  have hdrop1 : (['x'] : List Char).drop 4000 = [] := List.drop_eq_nil_of_le (by simp)
  rw [htake1, hdrop1, pjChunksAux_nil]

/-- Claim C3, counterexample: on a single 4001-character line, the
secondary dispatcher slices at the fixed 4000-character offset — in the
middle of the line.  The chunks' line sequences concatenate to two lines
where the original had one, so the chunking neither respects line
boundaries nor reproduces the original line sequence. -/
theorem pj_chunks_midline_cex :
    maxMessageLength < longText.length ∧
    pySplitLines longText = [longText] ∧
    pjChunks longText = [List.replicate 4000 'x', ['x']] ∧
    ((pjChunks longText).map pySplitLines).flatten ≠ [longText] := by
  have hsplit : pySplitLines longText = [longText] :=
    pySplitLines_no_newline longText (fun c hc => by simp [longText_mem c hc])
  have hsplit2 : pySplitLines (List.replicate 4000 'x') = [List.replicate 4000 'x'] :=
    pySplitLines_no_newline _ (fun c hc => by simp [List.eq_of_mem_replicate hc])
  have hsplit3 : pySplitLines ['x'] = [['x']] := by
    simp [pySplitLines]
  refine ⟨by rw [maxMessageLength, longText, List.length_replicate]; omega,
    hsplit, pjChunks_longText, ?_⟩
  rw [pjChunks_longText]
  simp only [List.map_cons, List.map_nil, hsplit2, hsplit3, List.flatten_cons,
    List.flatten_nil, List.singleton_append, List.append_nil]
  intro hcontra
  have hlen := congrArg List.length hcontra
  simp only [List.length_cons, List.length_nil] at hlen
  omega

/-- Helper: the fuel-indexed slicing loop concatenates back to its input
whenever the fuel covers the length. -/
theorem pjChunksAux_flatten (fuel : Nat) :
    ∀ text : List Char, text.length ≤ fuel → (pjChunksAux fuel text).flatten = text := by
  induction fuel with
  | zero =>
    intro text h
    have htext : text = [] := List.length_eq_zero.mp (Nat.le_zero.mp h)
    simp [pjChunksAux, htext]
  | succ fuel ih =>
    intro text h
    by_cases htext : text = []
    · simp [pjChunksAux, htext]
    · simp only [pjChunksAux, if_neg htext, List.flatten_cons]
      rw [ih (text.drop maxMessageLength) ?_]
      · exact List.take_append_drop _ _
      · have hpos : 0 < text.length := List.length_pos.mpr htext
        simp only [List.length_drop, maxMessageLength]
        omega

/-- Helper: every slice produced by the loop has length at most the
limit. -/
theorem pjChunksAux_bound (fuel : Nat) :
    ∀ (text : List Char) (chunk : List Char), chunk ∈ pjChunksAux fuel text →
      chunk.length ≤ maxMessageLength := by
  induction fuel with
  | zero =>
    intro text chunk h
    simp [pjChunksAux] at h
  | succ fuel ih =>
    intro text chunk h
    by_cases htext : text = []
    · simp [pjChunksAux, htext] at h
    · simp only [pjChunksAux, if_neg htext, List.mem_cons] at h
      cases h with
      | inl h =>
        subst h
        calc (text.take maxMessageLength).length
            = min maxMessageLength text.length := List.length_take _ _
          _ ≤ maxMessageLength := Nat.min_le_left _ _
      | inr h => exact ih _ chunk h

/-- Claim C3, amended: the secondary dispatcher's chunks never exceed the
size limit, and concatenating the chunks verbatim reproduces the original
text exactly (so no content is lost) — but the cut points are fixed
character offsets, which may fall mid-line, rather than line boundaries. -/
theorem pj_chunks_flatten_and_bound (text : List Char) :
    (pjChunks text).flatten = text ∧
    ∀ chunk ∈ pjChunks text, chunk.length ≤ maxMessageLength :=
  ⟨pjChunksAux_flatten text.length text le_rfl,
   fun chunk hc => pjChunksAux_bound text.length text chunk hc⟩

/-- Witness for C3 at a concrete text. -/
theorem pj_chunks_flatten_and_bound_witness :
    (pjChunks ['a']).flatten = ['a'] ∧ (['a'] : List Char).length ≤ maxMessageLength :=
  ⟨(pj_chunks_flatten_and_bound ['a']).1,
   (pj_chunks_flatten_and_bound ['a']).2 ['a'] (by decide)⟩

end BookBuddy
